import Mathlib

/-!
Verification of the chilipiper scheduling-automation service.

This file gives a shallow embedding, in Lean, of the code paths of the
repository that the specification talks about:

* the time parsing and formatting utilities of the timezone helper module
  (`parseTime`, `formatTime12h`),
* the `max_slots` limiting step of the get-slots route,
* the date/time parsing and the test-mode / key-selection logic of the
  book-slot route (`parseDateTime`, `POST`),
* the browser/context acquisition sequence `createInstanceForEmail` with
  its per-handle context lock, connectivity check and retry loop,
* and, modelled from the spec because its source is not part of the
  source tree handed to us, the admission control of the Concurrency
  Manager.

JavaScript regular expressions are embedded as deterministic character-list
parsers; for the anchored patterns used by the source the maximal-munch
parsers below accept exactly the same strings (the character classes that
may follow a greedy group are always disjoint from the group's class).
JavaScript string truthiness (the empty string is falsy) and number
truthiness (0 is falsy) are modelled explicitly at each use site.
-/

/-- Characters of the JS regex class `\s`, restricted to the ASCII range
(the source only ever feeds ASCII into these patterns). -/
def isSpaceCh (c : Char) : Bool :=
  c = ' ' || c = '\t' || c = '\n' || c = '\r' || c = Char.ofNat 11 || c = Char.ofNat 12

/-- The JS regex class `[A-Za-z]`. -/
def isLetterCh (c : Char) : Bool :=
  ('A' ≤ c && c ≤ 'Z') || ('a' ≤ c && c ≤ 'z')

/-- The JS regex class `\d`. -/
def isDigitCh (c : Char) : Bool :=
  '0' ≤ c && c ≤ '9'

/-- The JS regex class `[A-Za-z_]` used for IANA timezone name parts. -/
def isWordTzCh (c : Char) : Bool :=
  isLetterCh c || c = '_'

/-- Helper for JS `String.prototype.includes`: does the haystack contain
the needle as a contiguous substring? -/
def hasSubstrAux (needle : List Char) : List Char → Bool
  | [] => needle.isEmpty
  | c :: rest => needle.isPrefixOf (c :: rest) || hasSubstrAux needle rest

/-- Embedding of JS `haystack.includes(needle)`. -/
def containsSubstr (haystack needle : String) : Bool :=
  hasSubstrAux needle.data haystack.data

/-- JS `parseInt` on a non-empty string of decimal digits. -/
def digitsToNat (ds : List Char) : Nat :=
  ds.foldl (fun n c => n * 10 + (c.toNat - 48)) 0

/-- JS `String(n).padStart(2, '0')` for a natural number. -/
def pad2 (n : Nat) : String :=
  if n < 10 then "0" ++ Nat.repr n else Nat.repr n

/-- The 12-hour branch of `parseTime` (timezone utilities, lines 39-50):
the anchored regex `^(\d{1,2}):(\d{2})\s*(AM|PM)$` with the `i` flag,
followed by the AM/PM hour adjustment of the source. -/
def parseTime12h (cs : List Char) : Option (Nat × Nat) :=
  let hourRun := cs.takeWhile isDigitCh
  if hourRun.length = 0 ∨ hourRun.length > 2 then none else
  match cs.drop hourRun.length with
  | ':' :: t1 =>
    let minRun := t1.takeWhile isDigitCh
    if minRun.length ≠ 2 then none else
    match (t1.drop minRun.length).dropWhile isSpaceCh with
    | [p1, p2] =>
      if p1.toLower = 'a' ∧ p2.toLower = 'm' then
        let hour := digitsToNat hourRun
        some (if hour = 12 then 0 else hour, digitsToNat minRun)
      else if p1.toLower = 'p' ∧ p2.toLower = 'm' then
        let hour := digitsToNat hourRun
        some (if hour ≠ 12 then hour + 12 else hour, digitsToNat minRun)
      else none
    | _ => none
  | _ => none

/-- The 24-hour fallback branch of `parseTime` (timezone utilities,
lines 52-59): the anchored regex `^(\d{1,2}):(\d{2})$`. -/
def parseTime24h (cs : List Char) : Option (Nat × Nat) :=
  let hourRun := cs.takeWhile isDigitCh
  if hourRun.length = 0 ∨ hourRun.length > 2 then none else
  match cs.drop hourRun.length with
  | ':' :: t1 =>
    let minRun := t1.takeWhile isDigitCh
    if minRun.length = 2 ∧ t1.drop minRun.length = [] then
      some (digitsToNat hourRun, digitsToNat minRun)
    else none
  | _ => none

/-- Embeds `parseTime` from the timezone utilities (src/unnamed/part_000,
lines 38-62): tries the 12-hour format first, then the 24-hour format,
returning `(hour, minute)` with the hour in 24-hour form, or `none`. -/
def parseTime (s : String) : Option (Nat × Nat) :=
  (parseTime12h s.data).orElse (fun _ => parseTime24h s.data)

/-- Embeds `formatTime12h` from the timezone utilities
(src/unnamed/part_000, lines 67-73). -/
def formatTime12h (hour minute : Nat) : String :=
  let ampm := if hour ≥ 12 then "PM" else "AM"
  let d1 := if hour > 12 then hour - 12 else hour
  let displayHour := if d1 = 0 then 12 else d1
  Nat.repr displayHour ++ ":" ++ pad2 minute ++ " " ++ ampm

/-- C10: for every hour `h < 24` and minute `m < 60`, formatting to
12-hour form and re-parsing is the identity: `parseTime (formatTime12h h m)`
succeeds and returns exactly `(h, m)`. -/
theorem parseTime_formatTime12h_roundtrip (h m : Nat) (hh : h < 24) (hm : m < 60) :
    parseTime (formatTime12h h m) = some (h, m) := by
  have key : ∀ h < 24, ∀ m < 60, parseTime (formatTime12h h m) = some (h, m) := by decide
  exact key h hh m hm

/-- Witness for C10 at a concrete afternoon time. -/
theorem parseTime_formatTime12h_roundtrip_witness :
    parseTime (formatTime12h 13 5) = some (13, 5) :=
  parseTime_formatTime12h_roundtrip 13 5 (by decide) (by decide)

/-- The scraped payload handled by the get-slots route: the slot list and
the two counters the route reports.  The slot entries themselves are
opaque to the limiting step, hence the type parameter. -/
structure ScrapeData (α : Type) where
  slots : List α
  total_slots : Nat
  total_days : Nat
deriving DecidableEq

/-- Embeds the `max_slots` limiting step of the get-slots route
(src/src/app/api/get-slots/route.ts, lines 317-332): when a `max_slots`
was supplied (`some m`; JS number truthiness makes `0` behave like
`undefined`, hence the `m ≠ 0` guard) and more slots were scraped than
the limit, the response keeps only the first `m` slots and reports
`total_slots = m`; otherwise the payload passes through unchanged. -/
def applyMaxSlots {α : Type} (maxSlots : Option Nat) (d : ScrapeData α) : ScrapeData α :=
  match maxSlots with
  | none => d
  | some m =>
    if m ≠ 0 ∧ d.slots.length > m then
      { d with slots := d.slots.take m, total_slots := m }
    else d

/-- C9: for a valid `max_slots` value `m` (the route accepts 1..100), the
response slot list has length at most `m`; and when the scrape produced
more than `m` slots, the response holds exactly the first `m` of them and
reports `total_slots = m`. -/
theorem applyMaxSlots_limits {α : Type} (d : ScrapeData α) (m : Nat)
    (h1 : 1 ≤ m) (h2 : m ≤ 100) :
    (applyMaxSlots (some m) d).slots.length ≤ max m d.slots.length
  ∧ (d.slots.length ≤ m → (applyMaxSlots (some m) d).slots.length ≤ m)
  ∧ (d.slots.length > m →
      (applyMaxSlots (some m) d).slots = d.slots.take m
    ∧ (applyMaxSlots (some m) d).total_slots = m
    ∧ (applyMaxSlots (some m) d).slots.length = m) := by
  have hm0 : m ≠ 0 := by omega
  unfold applyMaxSlots
  by_cases hgt : d.slots.length > m
  · simp [hm0, hgt, List.length_take]
    omega
  · simp [hgt]

/-- Witness for C9: three scraped slots limited to two. -/
theorem applyMaxSlots_limits_witness :
    (applyMaxSlots (some 2) (⟨[10, 20, 30], 3, 1⟩ : ScrapeData Nat)).slots = [10, 20]
  ∧ (applyMaxSlots (some 2) (⟨[10, 20, 30], 3, 1⟩ : ScrapeData Nat)).total_slots = 2
  ∧ (applyMaxSlots (some 2) (⟨[10, 20, 30], 3, 1⟩ : ScrapeData Nat)).slots.length = 2 := by
  have h := (applyMaxSlots_limits (⟨[10, 20, 30], 3, 1⟩ : ScrapeData Nat) 2
    (by decide) (by decide)).2.2 (by decide)
  exact ⟨by rw [h.1]; decide, h.2.1, h.2.2⟩

/-- Modelled from the spec: the Concurrency Manager implementation
(`@/lib/concurrency-manager`) is not part of the source tree handed to
us, only its call sites are; this is the admission-control state of
section 4.2 of the spec: a count of active tasks and a count of queued
tasks. -/
structure CMState where
  active : Nat
  queued : Nat
deriving DecidableEq

/-- Outcome of one `execute()` submission: the task starts immediately,
is enqueued, or the call is rejected synchronously with `QueueFullError`. -/
inductive SubmitOutcome
  | started
  | enqueued
  | queueFullError
deriving DecidableEq

/-- Modelled from the spec: `execute(work, timeoutMs)` admission — if
fewer than `capacity` tasks are active the work starts immediately; else
it is enqueued (FIFO) up to `maxQueueSize`; else it fails immediately
with `QueueFullError` (never blocks, never silently drops). -/
def submit (cap qmax : Nat) (s : CMState) : SubmitOutcome × CMState :=
  if s.active < cap then (SubmitOutcome.started, { s with active := s.active + 1 })
  else if s.queued < qmax then (SubmitOutcome.enqueued, { s with queued := s.queued + 1 })
  else (SubmitOutcome.queueFullError, s)

/-- Submitting `n` concurrent `execute()` calls back-to-back, collecting
the per-call outcomes in submission order together with the final state. -/
def submitMany (cap qmax : Nat) : Nat → CMState → List SubmitOutcome × CMState
  | 0, s => ([], s)
  | n + 1, s =>
    let r := submit cap qmax s
    let rest := submitMany cap qmax n r.2
    (r.1 :: rest.1, rest.2)

/-- Splitting a burst of `m + n` submissions into one of `m` followed by
one of `n` from the reached state. -/
theorem submitMany_split (cap qmax m n : Nat) (s : CMState) :
    submitMany cap qmax (m + n) s
      = ((submitMany cap qmax m s).1
           ++ (submitMany cap qmax n (submitMany cap qmax m s).2).1,
         (submitMany cap qmax n (submitMany cap qmax m s).2).2) := by
  induction m generalizing s with
  | zero => simp [submitMany]
  | succ m ih =>
    rw [Nat.add_right_comm]
    simp only [submitMany]
    rw [ih]
    rfl

/-- While capacity remains, every submission starts immediately. -/
theorem submitMany_starts (cap qmax n a q : Nat) (h : a + n ≤ cap) :
    submitMany cap qmax n ⟨a, q⟩ = (List.replicate n SubmitOutcome.started, ⟨a + n, q⟩) := by
  induction n generalizing a with
  | zero => simp [submitMany]
  | succ n ih =>
    have ha : a < cap := by omega
    simp only [submitMany, submit, if_pos ha]
    rw [ih (a + 1) (by omega)]
    have : a + 1 + n = a + (n + 1) := by omega
    rw [this, List.replicate_succ]

/-- With capacity exhausted but queue space remaining, every submission
is enqueued. -/
theorem submitMany_enqueues (cap qmax n q : Nat) (h : q + n ≤ qmax) :
    submitMany cap qmax n ⟨cap, q⟩ = (List.replicate n SubmitOutcome.enqueued, ⟨cap, q + n⟩) := by
  induction n generalizing q with
  | zero => simp [submitMany]
  | succ n ih =>
    have hq : q < qmax := by omega
    simp only [submitMany, submit, if_pos hq, if_neg (lt_irrefl cap)]
    rw [ih (q + 1) (by omega)]
    have : q + 1 + n = q + (n + 1) := by omega
    rw [this, List.replicate_succ]

/-- With capacity and queue both full, every submission is rejected with
`QueueFullError` and the state does not change. -/
theorem submitMany_rejects (cap qmax n : Nat) :
    submitMany cap qmax n ⟨cap, qmax⟩
      = (List.replicate n SubmitOutcome.queueFullError, ⟨cap, qmax⟩) := by
  induction n with
  | zero => simp [submitMany]
  | succ n ih =>
    simp only [submitMany, submit, if_neg (lt_irrefl cap), if_neg (lt_irrefl qmax)]
    rw [ih, List.replicate_succ]

/-- C1: for capacity `cap` and queue size `qmax`, submitting
`n > cap + qmax` concurrent `execute()` calls to an idle manager starts
exactly `cap` of them immediately, enqueues the next `qmax`, and rejects
every call beyond `cap + qmax` synchronously with `QueueFullError`. -/
theorem execute_admission (cap qmax n : Nat) (h : cap + qmax < n) :
    (submitMany cap qmax n ⟨0, 0⟩).1
      = List.replicate cap SubmitOutcome.started
        ++ List.replicate qmax SubmitOutcome.enqueued
        ++ List.replicate (n - cap - qmax) SubmitOutcome.queueFullError := by
  obtain ⟨r, rfl⟩ : ∃ r, n = cap + (qmax + r) := ⟨n - cap - qmax, by omega⟩
  have hr : cap + (qmax + r) - cap - qmax = r := by omega
  rw [hr, submitMany_split, submitMany_starts cap qmax cap 0 0 (by omega)]
  simp only [Nat.zero_add]
  rw [submitMany_split, submitMany_enqueues cap qmax qmax 0 (by omega)]
  simp only [Nat.zero_add]
  rw [submitMany_rejects]
  simp [List.append_assoc]

/-- Witness for C1 at the spec's own scenario: capacity 2, queue size 1,
four back-to-back submissions — two start, one queues, one is rejected. -/
theorem execute_admission_witness :
    (submitMany 2 1 4 ⟨0, 0⟩).1
      = List.replicate 2 SubmitOutcome.started
        ++ List.replicate 1 SubmitOutcome.enqueued
        ++ List.replicate (4 - 2 - 1) SubmitOutcome.queueFullError :=
  execute_admission 2 1 4 (by decide)

/-- The instance-registry keys chosen by the book-slot route `POST`
handler for one booking (src/unnamed/part_001): `instanceKey` is the
logged key of line 581 (`email || booking_Date.now()`); `lookupKey` is
the key used for `getExistingInstance` on line 583 (only consulted when
`email` is truthy); `registerKey` is the key passed to
`registerInstance` on line 614; `cleanupKey` the key passed to
`cleanupInstance` on line 834. -/
structure BookingKeys where
  instanceKey : String
  lookupKey : Option String
  registerKey : String
  cleanupKey : String
deriving DecidableEq

/-- Embeds the key selection of the book-slot `POST` handler; `now` is
the value of `Date.now()` at line 581.  JS string truthiness: the empty
string is the only falsy email after the sanitizer's `|| ''` defaults. -/
def bookingKeys (email : String) (now : Nat) : BookingKeys :=
  { instanceKey := if email = "" then "booking_" ++ Nat.repr now else email
    lookupKey := if email = "" then none else some email
    registerKey := email
    cleanupKey := email }

/-- Counterexample to C7: with no email supplied, the handler computes
the generated token `booking_<now>` but registers the session under the
empty-string email instead — the generated unique token is never the
registration key. -/
theorem bookingKeys_counterexample :
    (bookingKeys "" 0).registerKey = ""
  ∧ (bookingKeys "" 0).instanceKey = "booking_0"
  ∧ (bookingKeys "" 0).registerKey ≠ (bookingKeys "" 0).instanceKey := by
  decide

/-- C7 (amended): registration and cleanup always use the raw `email`
value (the empty string when absent — the generated `booking_` token is
only logged); when an email is provided, lookup, registration and
cleanup all use that same email key. -/
theorem bookingKeys_use_email (email : String) (now : Nat) :
    (bookingKeys email now).registerKey = email
  ∧ (bookingKeys email now).cleanupKey = email
  ∧ (email ≠ "" →
      (bookingKeys email now).lookupKey = some email
    ∧ (bookingKeys email now).instanceKey = email) := by
  refine ⟨rfl, rfl, fun h => ?_⟩
  simp [bookingKeys, h]

/-- Witness for C7 (amended) at a concrete provided email. -/
theorem bookingKeys_use_email_witness :
    (bookingKeys "a@b.c" 5).registerKey = "a@b.c"
  ∧ (bookingKeys "a@b.c" 5).cleanupKey = "a@b.c"
  ∧ (bookingKeys "a@b.c" 5).lookupKey = some "a@b.c"
  ∧ (bookingKeys "a@b.c" 5).instanceKey = "a@b.c" := by
  have h := bookingKeys_use_email "a@b.c" 5
  exact ⟨h.1, h.2.1, (h.2.2 (by decide)).1, (h.2.2 (by decide)).2⟩

/-- JS `String.prototype.trim` on a character list (both ends, `\s`). -/
def trimChars (cs : List Char) : List Char :=
  ((cs.dropWhile isSpaceCh).reverse.dropWhile isSpaceCh).reverse

/-- The lowercase weekday names of the weekday-stripping regex of
`parseDateTime` (src/unnamed/part_001, line 46). -/
def weekdayNames : List String :=
  ["monday", "tuesday", "wednesday", "thursday", "friday", "saturday", "sunday"]

/-- Embeds the weekday strip of `parseDateTime` (line 46): the anchored
replace `^(Monday|...|Sunday),\s*` with the `i` flag. -/
def stripWeekday (cs : List Char) : List Char :=
  match weekdayNames.find? (fun w => (w.data ++ [',']).isPrefixOf (cs.map Char.toLower)) with
  | some w => (cs.drop (w.length + 1)).dropWhile isSpaceCh
  | none => cs

/-- Embeds the IANA-timezone suffix strip of `parseDateTime` (lines
52-55): the suffix regex `\s+([A-Za-z]+\/[A-Za-z_]+)[\s,]*$`.  Returns
the input with the matched suffix removed and trimmed when the pattern
matches, `none` otherwise.  (The captured timezone name itself is dead
in the route's single-argument call, so it is not returned.) -/
def ianaStrip (cs : List Char) : Option (List Char) :=
  let r1 := cs.reverse.dropWhile (fun c => isSpaceCh c || c = ',')
  let run1 := r1.takeWhile isWordTzCh
  match run1, r1.drop run1.length with
  | _ :: _, '/' :: r2 =>
    let run2 := r2.takeWhile isLetterCh
    match run2, r2.drop run2.length with
    | _ :: _, c :: rest =>
      if isSpaceCh c then
        some (trimChars ((c :: rest).dropWhile isSpaceCh).reverse)
      else none
    | _, _ => none
  | _, _ => none

/-- Embeds the abbreviated-timezone suffix handling of `parseDateTime`
(lines 58-62): the suffix regex `\s+([A-Z]{2,4})[\s,]*$` with the `i`
flag.  Returns the uppercased captured group together with the stripped,
trimmed remainder when the pattern matches. -/
def abbrevStrip (cs : List Char) : Option (String × List Char) :=
  let r1 := cs.reverse.dropWhile (fun c => isSpaceCh c || c = ',')
  let run := r1.takeWhile isLetterCh
  if 2 ≤ run.length ∧ run.length ≤ 4 then
    match r1.drop run.length with
    | c :: rest =>
      if isSpaceCh c then
        some (String.mk (run.reverse.map Char.toUpper),
              trimChars ((c :: rest).dropWhile isSpaceCh).reverse)
      else none
    | [] => none
  else none

/-- The month-name table of `parseDateTimeComponents`
(src/unnamed/part_001, lines 96-103). -/
def monthPairs : List (String × Nat) :=
  [("january", 1), ("jan", 1), ("february", 2), ("feb", 2),
   ("march", 3), ("mar", 3), ("april", 4), ("apr", 4),
   ("may", 5), ("june", 6), ("jun", 6), ("july", 7), ("jul", 7),
   ("august", 8), ("aug", 8), ("september", 9), ("sep", 9), ("sept", 9),
   ("october", 10), ("oct", 10), ("november", 11), ("nov", 11),
   ("december", 12), ("dec", 12)]

/-- Lookup in the month-name table (line 105). -/
def monthMapLookup (m : String) : Option Nat :=
  (monthPairs.find? (fun p => p.1 = m)).map (fun p => p.2)

/-- JS `day.padStart(2, '0')` on the matched day digit string. -/
def padDayStr (d : List Char) : String :=
  if d.length = 1 then "0" ++ String.mk d else String.mk d

/-- Embeds the main date/time pattern of `parseDateTime` together with
`parseDateTimeComponents` in the route's single-argument call (no
timezone conversion): the anchored regexes
`^([A-Za-z]+)\s+(\d{1,2}),\s+(\d{4})\s+at\s+(\d{1,2}):(\d{2})\s*(AM|PM)$`
and the alternative without `at`, both with the `i` flag (lines 69-80),
followed by the month lookup and no-conversion formatting of lines
90-166: the result is `(YYYY-MM-DD, H:MM AM/PM)` built from the matched
strings (the day string is zero-padded, the month number is the table
value zero-padded, hour and minute keep their matched digits, AM/PM is
uppercased). -/
def parseMDYTime (cs : List Char) : Option (String × String) :=
  let monthRun := cs.takeWhile isLetterCh
  if monthRun.isEmpty then none else
  let t1 := cs.drop monthRun.length
  let sp1 := t1.takeWhile isSpaceCh
  if sp1.isEmpty then none else
  let t2 := t1.drop sp1.length
  let dayRun := t2.takeWhile isDigitCh
  if dayRun.length = 0 ∨ dayRun.length > 2 then none else
  match t2.drop dayRun.length with
  | ',' :: t3 =>
    let sp2 := t3.takeWhile isSpaceCh
    if sp2.isEmpty then none else
    let t4 := t3.drop sp2.length
    let yearRun := t4.takeWhile isDigitCh
    if yearRun.length ≠ 4 then none else
    let t5 := t4.drop yearRun.length
    let sp3 := t5.takeWhile isSpaceCh
    if sp3.isEmpty then none else
    let t6 := t5.drop sp3.length
    let t7opt : Option (List Char) :=
      match t6 with
      | a :: t :: rest =>
        if a.toLower = 'a' ∧ t.toLower = 't' then
          let sp4 := rest.takeWhile isSpaceCh
          if sp4.isEmpty then none else some (rest.drop sp4.length)
        else some t6
      | _ => some t6
    match t7opt with
    | none => none
    | some t7 =>
      let hourRun := t7.takeWhile isDigitCh
      if hourRun.length = 0 ∨ hourRun.length > 2 then none else
      match t7.drop hourRun.length with
      | ':' :: t8 =>
        let minRun := t8.takeWhile isDigitCh
        if minRun.length ≠ 2 then none else
        match (t8.drop minRun.length).dropWhile isSpaceCh with
        | [p1, p2] =>
          let ap := String.mk [p1.toUpper, p2.toUpper]
          if ap = "AM" ∨ ap = "PM" then
            match monthMapLookup (String.mk (monthRun.map Char.toLower)) with
            | some month =>
              some (String.mk yearRun ++ "-" ++ pad2 month ++ "-" ++ padDayStr dayRun,
                    String.mk hourRun ++ ":" ++ String.mk minRun ++ " " ++ ap)
            | none => none
          else none
        | _ => none
      | _ => none
  | _ => none

/-- Embeds `parseDateTime` (src/unnamed/part_001, lines 39-85) as the
book-slot route calls it — `parseDateTime(dateTime)` with no source or
target timezone, so the timezone-conversion branch of
`parseDateTimeComponents` is dead and only the suffix stripping affects
the outcome.  Note the source's quirk: when a timezone suffix is
stripped, `cleaned` is recomputed from the original string, dropping the
weekday strip. -/
def parseDateTime (s : String) : Option (String × String) :=
  let cs := s.data
  let cleaned0 := stripWeekday cs
  let cleaned :=
    match ianaStrip cs with
    | some c => c
    | none =>
      match abbrevStrip cs with
      | some (tz, c) => if tz = "AM" ∨ tz = "PM" then cleaned0 else c
      | none => cleaned0
  parseMDYTime cleaned

/-- The decision taken by the book-slot `POST` handler once the request
passes the security middleware (src/unnamed/part_001, lines 469-576):
an invalid `dateTime` yields a validation error; an email whose
lowercasing contains `test` yields the mock success response (carrying
the parsed date, time and `testMode: true`) without any work being
submitted; otherwise the booking work is submitted to the Concurrency
Manager. -/
inductive BookSlotStep
  | invalidDateTime
  | testModeResponse (date time : String) (testMode : Bool)
  | submitBooking (date time : String)
deriving DecidableEq

/-- JS `String.prototype.toLowerCase` on the ASCII range (character-wise
lowercasing). -/
def lowerStr (s : String) : String :=
  String.mk (s.data.map Char.toLower)

/-- Embeds the branch structure of the book-slot `POST` handler between
date parsing (line 470) and submission to the Concurrency Manager
(line 576). -/
def bookSlotRoute (email dateTime : String) : BookSlotStep :=
  match parseDateTime dateTime with
  | none => BookSlotStep.invalidDateTime
  | some (date, time) =>
    if containsSubstr (lowerStr email) "test" then
      BookSlotStep.testModeResponse date time true
    else
      BookSlotStep.submitBooking date time

/-- C8: whenever the email contains `test` (case-insensitively) and the
`dateTime` parses, the handler answers with the test-mode success
response carrying the parsed date and time and `testMode: true`, and in
particular never reaches the `submitBooking` step — no work is handed to
the Concurrency Manager, no browser handle is touched, no booking is
performed. -/
theorem bookSlot_testMode (email dateTime d t : String)
    (hp : parseDateTime dateTime = some (d, t))
    (ht : containsSubstr (lowerStr email) "test" = true) :
    bookSlotRoute email dateTime = BookSlotStep.testModeResponse d t true
  ∧ ∀ d' t', bookSlotRoute email dateTime ≠ BookSlotStep.submitBooking d' t' := by
  constructor
  · simp [bookSlotRoute, hp, ht]
  · intro d' t'
    simp [bookSlotRoute, hp, ht]

/-- Witness for C8 on a concrete test-mode request. -/
theorem bookSlot_testMode_witness :
    bookSlotRoute "test@example.com" "November 13, 2025 at 1:25 PM"
      = BookSlotStep.testModeResponse "2025-11-13" "1:25 PM" true
  ∧ ∀ d' t', bookSlotRoute "test@example.com" "November 13, 2025 at 1:25 PM"
      ≠ BookSlotStep.submitBooking d' t' :=
  bookSlot_testMode "test@example.com" "November 13, 2025 at 1:25 PM"
    "2025-11-13" "1:25 PM" (by decide) (by decide)

/-- Script for one run of `createInstanceForEmail`
(src/unnamed/part_001, lines 222-375), abstracting the collaborators the
function calls into.  Browser handles are numbered in acquisition order
(`browserPool.getBrowser` is assumed to succeed and hand out the next
number; the pool implementation is not part of the source tree).
`connected b` is what `b.isConnected()` reports when checked;
`attempt i` is the outcome of the i-th `newContext`/`newPage` attempt
(`none` = success, `some msg` = it throws an error with message `msg`);
`post` is the outcome of the page preparation and navigation after the
retry loop (`page.route`, `page.goto`, the click loops and
`waitForSelector`); `urlOk` is the line-237 `chili_piper_url` check. -/
structure Env where
  urlOk : Bool
  connected : Nat → Bool
  attempt : Nat → Option String
  post : Option String

/-- Pool-visible state of one `createInstanceForEmail` run: the next
browser number the pool will hand out, the current browser and its
context-lock token (lock tokens are numbered in acquisition order), the
next lock token, and the release events recorded so far (a release
callback invoked twice appears twice). -/
structure PoolSt where
  nextB : Nat
  cur : Nat
  curLock : Nat
  nextLock : Nat
  releasedB : List Nat
  releasedL : List Nat
deriving DecidableEq, Repr

/-- The swap sequence the source runs on a disconnect or a retryable
context failure (lines 256-259 and 275-278): invoke the current release
callback, return the current browser to the pool, acquire a fresh
browser and the context lock on it. -/
def swapBrowser (s : PoolSt) : PoolSt :=
  { nextB := s.nextB + 1
    cur := s.nextB
    curLock := s.nextLock
    nextLock := s.nextLock + 1
    releasedB := s.releasedB ++ [s.cur]
    releasedL := s.releasedL ++ [s.curLock] }

/-- The connectivity check at the top of each retry-loop iteration
(lines 252-260): keep the current browser if it is connected, otherwise
swap it for a fresh one. -/
def ctxIterStart (env : Env) (s : PoolSt) : PoolSt :=
  if env.connected s.cur then s else swapBrowser s

/-- How the retry loop of lines 249-288 ends: `ok` — context and page
created, the loop broke; `threw msg` — a context-creation error was
re-thrown out of the loop; `noPage` — the `while retries > 0` condition
ran out without a page (unreachable from the initial `retries = 3`, kept
for faithfulness of the `if (!page)` check on line 296). -/
inductive LoopRes
  | ok
  | threw (msg : String)
  | noPage
deriving DecidableEq

/-- Result of the retry loop: how it ended, the pool state, the number
of `newContext`/`newPage` attempts consumed and the backoff delays (in
milliseconds) slept between attempts. -/
structure LoopOut where
  res : LoopRes
  st : PoolSt
  attempts : Nat
  delays : List Nat
deriving DecidableEq

/-- Embeds the context-creation retry loop of `createInstanceForEmail`
(lines 249-288).  The fuel argument is the source's `retries` variable
(initially 3); `iter` numbers the attempts.  On an error whose message
contains `has been closed` while retries remain, the lock and browser
are swapped and the loop retries after a 100 ms delay; on any other
error (or once retries are exhausted) the lock is released, the browser
returned, and the error re-thrown. -/
def ctxLoop (env : Env) : Nat → Nat → PoolSt → LoopOut
  | _, 0, s => { res := LoopRes.noPage, st := s, attempts := 0, delays := [] }
  | iter, r + 1, s =>
    let s1 := ctxIterStart env s
    match env.attempt iter with
    | none => { res := LoopRes.ok, st := s1, attempts := 1, delays := [] }
    | some msg =>
      if containsSubstr msg "has been closed" ∧ 0 < r then
        let out := ctxLoop env (iter + 1) r (swapBrowser s1)
        { out with attempts := out.attempts + 1, delays := 100 :: out.delays }
      else
        { res := LoopRes.threw msg
          st := { s1 with releasedL := s1.releasedL ++ [s1.curLock]
                          releasedB := s1.releasedB ++ [s1.cur] }
          attempts := 1
          delays := [] }

/-- What `createInstanceForEmail` hands back to the route: the session
triple on success (identified here by its browser number), or `null`. -/
inductive CreateRes
  | created (b : Nat)
  | failed
deriving DecidableEq

/-- Observable outcome of one `createInstanceForEmail` run: the returned
value, the final pool state, and the attempt/backoff trace of the loop. -/
structure RunOut where
  result : CreateRes
  st : PoolSt
  attempts : Nat
  delays : List Nat
deriving DecidableEq

/-- Pool state right after lines 243-246: browser 0 acquired, context
lock 0 acquired on it. -/
def initSt : PoolSt :=
  { nextB := 1, cur := 0, curLock := 0, nextLock := 1, releasedB := [], releasedL := [] }

/-- Pool state when the function throws before touching the pool. -/
def emptySt : PoolSt :=
  { nextB := 0, cur := 0, curLock := 0, nextLock := 0, releasedB := [], releasedL := [] }

/-- Embeds `createInstanceForEmail` (src/unnamed/part_001, lines
222-375) over a script.  The missing-URL throw of line 237 reaches the
catch block with nothing acquired.  After the loop: on `ok` the lock is
released and nulled (lines 291-294) and the page preparation runs — if
it throws, the catch block closes page and context and returns the
browser (lines 352-374); on `threw` the catch block invokes the (not
nulled) release callback a second time and returns the browser a second
time; the `noPage` case mirrors lines 296-299 followed by the catch
block. -/
def createInstanceForEmail (env : Env) : RunOut :=
  if env.urlOk = false then
    { result := CreateRes.failed, st := emptySt, attempts := 0, delays := [] }
  else
    let out := ctxLoop env 0 3 initSt
    match out.res with
    | LoopRes.ok =>
      let s1 := { out.st with releasedL := out.st.releasedL ++ [out.st.curLock] }
      match env.post with
      | none =>
        { result := CreateRes.created s1.cur, st := s1
          attempts := out.attempts, delays := out.delays }
      | some _ =>
        { result := CreateRes.failed
          st := { s1 with releasedB := s1.releasedB ++ [s1.cur] }
          attempts := out.attempts, delays := out.delays }
    | LoopRes.threw _ =>
      { result := CreateRes.failed
        st := { out.st with releasedL := out.st.releasedL ++ [out.st.curLock]
                            releasedB := out.st.releasedB ++ [out.st.cur] }
        attempts := out.attempts, delays := out.delays }
    | LoopRes.noPage =>
      { result := CreateRes.failed
        st := { out.st with releasedL := out.st.releasedL ++ [out.st.curLock]
                            releasedB := out.st.releasedB ++ [out.st.cur, out.st.cur] }
        attempts := out.attempts, delays := out.delays }

/-- Modelled from the spec: the typed error taxonomy of section 7
(`LaunchError`, `SessionCreationError`, `QueueFullError`,
`TimeoutError`); the error-handler module that would define these is not
part of the source tree handed to us. -/
inductive TypedError
  | launchError
  | sessionCreationError
  | queueFullError
  | timeoutError
deriving DecidableEq

/-- An error surfaced by the booking path: either one of the spec's
typed taxonomy errors, or a plain JS `new Error(msg)`. -/
inductive BookErr
  | typed (e : TypedError)
  | generic (msg : String)
deriving DecidableEq

/-- Outcome of the session-creation step of the booking work function:
the session's browser, or a thrown error. -/
inductive SessionOutcome
  | ok (b : Nat)
  | error (e : BookErr)
deriving DecidableEq

/-- Embeds how the book-slot route surfaces a failed session creation
(src/unnamed/part_001, lines 592-605): a `null` from
`createInstanceForEmail` becomes a thrown plain
`Error('Failed to create browser instance')`. -/
def sessionCreationStep (env : Env) : SessionOutcome :=
  match (createInstanceForEmail env).result with
  | CreateRes.created b => SessionOutcome.ok b
  | CreateRes.failed => SessionOutcome.error (BookErr.generic "Failed to create browser instance")

/-- Script in which every context-creation attempt fails with the
retryable disconnect message. -/
def envAllClosed : Env :=
  { urlOk := true
    connected := fun _ => true
    attempt := fun _ => some "Target page, context or browser has been closed"
    post := none }

/-- Script in which the first attempt fails with a non-retryable error. -/
def envBoom : Env :=
  { urlOk := true
    connected := fun _ => true
    attempt := fun _ => some "boom"
    post := none }

/-- Script with one retryable failure followed by a successful attempt. -/
def envRetryOnce : Env :=
  { urlOk := true
    connected := fun _ => true
    attempt := fun i => if i = 0 then some "context has been closed" else none
    post := none }

/-- Script whose first browser is handed out disconnected. -/
def envDisc : Env :=
  { urlOk := true
    connected := fun b => decide (b ≠ 0)
    attempt := fun _ => none
    post := none }

/-- One-step unfolding of the retry loop: a successful attempt breaks
the loop with the (possibly swapped) current state. -/
theorem ctxLoop_ok (env : Env) (iter r : Nat) (s : PoolSt)
    (ha : env.attempt iter = none) :
    ctxLoop env iter (r + 1) s
      = { res := LoopRes.ok, st := ctxIterStart env s, attempts := 1, delays := [] } := by
  simp only [ctxLoop, ha]

/-- One-step unfolding of the retry loop: a retryable failure swaps the
lock and browser, sleeps 100 ms, and recurses. -/
theorem ctxLoop_retry (env : Env) (iter r : Nat) (s : PoolSt) (msg : String)
    (ha : env.attempt iter = some msg)
    (hc : containsSubstr msg "has been closed" ∧ 0 < r) :
    ctxLoop env iter (r + 1) s
      = { res := (ctxLoop env (iter + 1) r (swapBrowser (ctxIterStart env s))).res
          st := (ctxLoop env (iter + 1) r (swapBrowser (ctxIterStart env s))).st
          attempts := (ctxLoop env (iter + 1) r (swapBrowser (ctxIterStart env s))).attempts + 1
          delays := 100 :: (ctxLoop env (iter + 1) r (swapBrowser (ctxIterStart env s))).delays } := by
  simp only [ctxLoop, ha, if_pos hc]

/-- One-step unfolding of the retry loop: a non-retryable failure (or a
retryable one with the budget spent) releases the lock and browser and
re-throws. -/
theorem ctxLoop_throw (env : Env) (iter r : Nat) (s : PoolSt) (msg : String)
    (ha : env.attempt iter = some msg)
    (hc : ¬(containsSubstr msg "has been closed" ∧ 0 < r)) :
    ctxLoop env iter (r + 1) s
      = { res := LoopRes.threw msg
          st := { ctxIterStart env s with
                  releasedL := (ctxIterStart env s).releasedL ++ [(ctxIterStart env s).curLock]
                  releasedB := (ctxIterStart env s).releasedB ++ [(ctxIterStart env s).cur] }
          attempts := 1
          delays := [] } := by
  simp only [ctxLoop, ha, if_neg hc]

/-- With every context-creation attempt failing, the retry loop always
ends by re-throwing an error (never by breaking with a page). -/
theorem ctxLoop_allFail_throws (env : Env) (hfail : ∀ i, env.attempt i ≠ none) :
    ∀ r iter s, ∃ msg, (ctxLoop env iter (r + 1) s).res = LoopRes.threw msg := by
  intro r
  induction r with
  | zero =>
    intro iter s
    cases ha : env.attempt iter with
    | none => exact absurd ha (hfail iter)
    | some msg =>
      exact ⟨msg, by rw [ctxLoop_throw env iter 0 s msg ha (by simp)]⟩
  | succ r ih =>
    intro iter s
    cases ha : env.attempt iter with
    | none => exact absurd ha (hfail iter)
    | some msg =>
      by_cases hc : containsSubstr msg "has been closed" ∧ 0 < r + 1
      · obtain ⟨msg', hm⟩ := ih (iter + 1) (swapBrowser (ctxIterStart env s))
        refine ⟨msg', ?_⟩
        rw [ctxLoop_retry env iter (r + 1) s msg ha hc]
        exact hm
      · exact ⟨msg, by rw [ctxLoop_throw env iter (r + 1) s msg ha hc]⟩

/-- Counterexample to C2: exhausting the retry budget (three attempts,
all failing with the retryable disconnect message) makes
`createInstanceForEmail` return `null`, which the route surfaces as a
plain generic `Error('Failed to create browser instance')` — not as a
typed `SessionCreationError`. -/
theorem sessionCreation_counterexample :
    sessionCreationStep envAllClosed
      = SessionOutcome.error (BookErr.generic "Failed to create browser instance")
  ∧ sessionCreationStep envAllClosed
      ≠ SessionOutcome.error (BookErr.typed TypedError.sessionCreationError) := by
  decide

/-- C2 (amended): whenever every attempt of the retry budget fails, the
session-creation path fails — `createInstanceForEmail` swallows the
final error and returns `null`, and the booking path surfaces this as
the generic `Error('Failed to create browser instance')`, for every
script of attempt failures. -/
theorem sessionCreation_generic_on_exhaustion (env : Env)
    (hurl : env.urlOk = true) (hfail : ∀ i, env.attempt i ≠ none) :
    sessionCreationStep env
      = SessionOutcome.error (BookErr.generic "Failed to create browser instance") := by
  obtain ⟨msg, hm⟩ := ctxLoop_allFail_throws env hfail 2 0 initSt
  norm_num at hm
  unfold sessionCreationStep createInstanceForEmail
  simp [hurl, hm]

/-- Witness for C2 (amended) on a script whose single attempt fails with
a non-retryable error. -/
theorem sessionCreation_generic_on_exhaustion_witness :
    sessionCreationStep envBoom
      = SessionOutcome.error (BookErr.generic "Failed to create browser instance") :=
  sessionCreation_generic_on_exhaustion envBoom rfl (fun i h => by simp [envBoom] at h)

/-- The retry loop makes at most as many attempts as it has fuel. -/
theorem ctxLoop_attempts_le (env : Env) :
    ∀ r iter s, (ctxLoop env iter r s).attempts ≤ r := by
  intro r
  induction r with
  | zero => intro iter s; simp [ctxLoop]
  | succ r ih =>
    intro iter s
    cases ha : env.attempt iter with
    | none => rw [ctxLoop_ok env iter r s ha]; dsimp only; omega
    | some msg =>
      by_cases hc : containsSubstr msg "has been closed" ∧ 0 < r
      · rw [ctxLoop_retry env iter r s msg ha hc]
        have := ih (iter + 1) (swapBrowser (ctxIterStart env s))
        dsimp only
        omega
      · rw [ctxLoop_throw env iter r s msg ha hc]
        dsimp only
        omega

/-- With fuel available, the retry loop makes at least one attempt. -/
theorem ctxLoop_attempts_pos (env : Env) (r iter : Nat) (s : PoolSt) :
    1 ≤ (ctxLoop env iter (r + 1) s).attempts := by
  cases ha : env.attempt iter with
  | none => rw [ctxLoop_ok env iter r s ha]
  | some msg =>
    by_cases hc : containsSubstr msg "has been closed" ∧ 0 < r
    · rw [ctxLoop_retry env iter r s msg ha hc]
      dsimp only
      omega
    · rw [ctxLoop_throw env iter r s msg ha hc]

/-- The retry loop sleeps exactly one 100 ms backoff between consecutive
attempts: the recorded delays are `attempts - 1` copies of 100. -/
theorem ctxLoop_delays_backoff (env : Env) :
    ∀ r iter s, (ctxLoop env iter r s).delays
      = List.replicate ((ctxLoop env iter r s).attempts - 1) 100 := by
  intro r
  induction r with
  | zero => intro iter s; simp [ctxLoop]
  | succ r ih =>
    intro iter s
    cases ha : env.attempt iter with
    | none => rw [ctxLoop_ok env iter r s ha]; simp
    | some msg =>
      by_cases hc : containsSubstr msg "has been closed" ∧ 0 < r
      · obtain ⟨r', rfl⟩ : ∃ r', r = r' + 1 := ⟨r - 1, by omega⟩
        rw [ctxLoop_retry env iter (r' + 1) s msg ha hc]
        dsimp only
        rw [ih (iter + 1) (swapBrowser (ctxIterStart env s))]
        have hpos := ctxLoop_attempts_pos env r' (iter + 1) (swapBrowser (ctxIterStart env s))
        obtain ⟨k, hk⟩ : ∃ k,
            (ctxLoop env (iter + 1) (r' + 1) (swapBrowser (ctxIterStart env s))).attempts
              = k + 1 :=
          ⟨(ctxLoop env (iter + 1) (r' + 1) (swapBrowser (ctxIterStart env s))).attempts - 1,
           by omega⟩
        rw [hk]
        simp [List.replicate_succ]
      · rw [ctxLoop_throw env iter r s msg ha hc]; simp

/-- A further attempt exists only because the previous one failed with an
error message containing `has been closed` while retries remained. -/
theorem ctxLoop_retry_only_closed (env : Env) :
    ∀ r iter s i, i + 2 ≤ (ctxLoop env iter r s).attempts →
      ∃ msg, env.attempt (iter + i) = some msg
        ∧ containsSubstr msg "has been closed" = true ∧ i + 1 < r := by
  intro r
  induction r with
  | zero => intro iter s i h; simp [ctxLoop] at h
  | succ r ih =>
    intro iter s i h
    cases ha : env.attempt iter with
    | none => rw [ctxLoop_ok env iter r s ha] at h; dsimp only at h; omega
    | some msg =>
      by_cases hc : containsSubstr msg "has been closed" ∧ 0 < r
      · rw [ctxLoop_retry env iter r s msg ha hc] at h
        dsimp only at h
        cases i with
        | zero =>
          refine ⟨msg, by simpa using ha, hc.1, by omega⟩
        | succ j =>
          have hj : j + 2
              ≤ (ctxLoop env (iter + 1) r (swapBrowser (ctxIterStart env s))).attempts := by
            omega
          obtain ⟨msg', h1, h2, h3⟩ := ih (iter + 1) (swapBrowser (ctxIterStart env s)) j hj
          refine ⟨msg', ?_, h2, by omega⟩
          rw [show iter + (j + 1) = iter + 1 + j by omega]
          exact h1
      · rw [ctxLoop_throw env iter r s msg ha hc] at h
        dsimp only at h
        omega

/-- The wrapper around the loop passes the attempt count and the backoff
trace of the loop through unchanged. -/
theorem createInstance_trace (env : Env) (h : env.urlOk = true) :
    (createInstanceForEmail env).attempts = (ctxLoop env 0 3 initSt).attempts
  ∧ (createInstanceForEmail env).delays = (ctxLoop env 0 3 initSt).delays := by
  unfold createInstanceForEmail
  cases hres : (ctxLoop env 0 3 initSt).res with
  | ok =>
    cases hpost : env.post with
    | none => simp [h, hres, hpost]
    | some m => simp [h, hres, hpost]
  | threw m => simp [h, hres]
  | noPage => simp [h, hres]

/-- C3: context creation is attempted at most 3 times; one short 100 ms
backoff is slept between consecutive attempts; and an attempt beyond the
first exists only because the attempt before it failed with an error
message containing `has been closed` while retries remained — any other
error aborts the sequence immediately with no further attempt. -/
theorem contextRetry_policy (env : Env) :
    (createInstanceForEmail env).attempts ≤ 3
  ∧ (createInstanceForEmail env).delays
      = List.replicate ((createInstanceForEmail env).attempts - 1) 100
  ∧ (∀ i, i + 2 ≤ (createInstanceForEmail env).attempts →
      ∃ msg, env.attempt i = some msg
        ∧ containsSubstr msg "has been closed" = true ∧ i + 1 < 3) := by
  by_cases h : env.urlOk = true
  · obtain ⟨ha, hd⟩ := createInstance_trace env h
    rw [ha, hd]
    refine ⟨ctxLoop_attempts_le env 3 0 initSt, ctxLoop_delays_backoff env 3 0 initSt, ?_⟩
    intro i hi
    have hr := ctxLoop_retry_only_closed env 3 0 initSt i hi
    simpa using hr
  · have hf : env.urlOk = false := by revert h; cases env.urlOk <;> simp
    have he : createInstanceForEmail env
        = { result := CreateRes.failed, st := emptySt, attempts := 0, delays := [] } := by
      unfold createInstanceForEmail
      simp [hf]
    rw [he]
    refine ⟨by simp, by simp, ?_⟩
    intro i hi
    simp at hi

/-- Lock invariant of a run state: the current lock token is the only
acquired lock not yet recorded as released. -/
def LockInv (s : PoolSt) : Prop :=
  s.curLock < s.nextLock ∧ ∀ l, l < s.nextLock → l = s.curLock ∨ l ∈ s.releasedL

/-- The swap sequence preserves the lock invariant: it releases the old
lock and makes the freshly acquired one current. -/
theorem swapBrowser_lockInv {s : PoolSt} (h : LockInv s) : LockInv (swapBrowser s) := by
  obtain ⟨hc, hi⟩ := h
  constructor
  · simp [swapBrowser]
  · intro l hl
    simp only [swapBrowser] at hl ⊢
    rcases Nat.lt_succ_iff_lt_or_eq.mp hl with h1 | h1
    · rcases hi l h1 with h2 | h2
      · right; simp [h2]
      · right; simp [h2]
    · left; exact h1

/-- The connectivity check preserves the lock invariant. -/
theorem ctxIterStart_lockInv {env : Env} {s : PoolSt} (h : LockInv s) :
    LockInv (ctxIterStart env s) := by
  unfold ctxIterStart
  split
  · exact h
  · exact swapBrowser_lockInv h

/-- Releasing the current lock (keeping it current) preserves the lock
invariant. -/
theorem releaseCur_lockInv {s : PoolSt} (h : LockInv s) :
    LockInv { s with releasedL := s.releasedL ++ [s.curLock]
                     releasedB := s.releasedB ++ [s.cur] } := by
  obtain ⟨hc, hi⟩ := h
  refine ⟨hc, ?_⟩
  intro l hl
  rcases hi l hl with h2 | h2
  · left; exact h2
  · right; simp [h2]

/-- The retry loop preserves the lock invariant on every path. -/
theorem ctxLoop_lockInv (env : Env) :
    ∀ r iter s, LockInv s → LockInv (ctxLoop env iter r s).st := by
  intro r
  induction r with
  | zero => intro iter s h; simpa [ctxLoop] using h
  | succ r ih =>
    intro iter s h
    have h1 : LockInv (ctxIterStart env s) := ctxIterStart_lockInv h
    cases ha : env.attempt iter with
    | none => rw [ctxLoop_ok env iter r s ha]; exact h1
    | some msg =>
      by_cases hc : containsSubstr msg "has been closed" ∧ 0 < r
      · rw [ctxLoop_retry env iter r s msg ha hc]
        exact ih (iter + 1) (swapBrowser (ctxIterStart env s)) (swapBrowser_lockInv h1)
      · rw [ctxLoop_throw env iter r s msg ha hc]
        exact releaseCur_lockInv h1

/-- The initial state (browser 0 with lock 0) satisfies the invariant. -/
theorem initSt_lockInv : LockInv initSt := by
  constructor
  · simp [initSt]
  · intro l hl
    left
    simp [initSt] at hl ⊢
    omega

/-- On every exit of `createInstanceForEmail`, the final release trace
extends the loop's trace with (at least) one more invocation of the
current lock's release callback, and no lock is acquired after the loop. -/
theorem createInstance_final_locks (env : Env) (h : env.urlOk = true) :
    (createInstanceForEmail env).st.nextLock = (ctxLoop env 0 3 initSt).st.nextLock
  ∧ (createInstanceForEmail env).st.releasedL
      = (ctxLoop env 0 3 initSt).st.releasedL ++ [(ctxLoop env 0 3 initSt).st.curLock] := by
  unfold createInstanceForEmail
  cases hres : (ctxLoop env 0 3 initSt).res with
  | ok =>
    cases hpost : env.post with
    | none => simp [h, hres, hpost]
    | some m => simp [h, hres, hpost]
  | threw m => simp [h, hres]
  | noPage => simp [h, hres]

/-- C4: on every exit path of `createInstanceForEmail` — success,
retried failure, non-retryable error, and final cleanup — every context
lock acquired from the pool has had its release callback invoked by the
time the function returns: every acquired lock token is in the release
trace. -/
theorem contextLocks_released (env : Env) :
    ∀ l, l < (createInstanceForEmail env).st.nextLock →
      l ∈ (createInstanceForEmail env).st.releasedL := by
  intro l hl
  by_cases h : env.urlOk = true
  · obtain ⟨hn, hrl⟩ := createInstance_final_locks env h
    rw [hn] at hl
    rw [hrl]
    have hinv := ctxLoop_lockInv env 3 0 initSt initSt_lockInv
    rcases hinv.2 l hl with h2 | h2
    · simp [h2]
    · simp [h2]
  · have hf : env.urlOk = false := by revert h; cases env.urlOk <;> simp
    have he : createInstanceForEmail env
        = { result := CreateRes.failed, st := emptySt, attempts := 0, delays := [] } := by
      unfold createInstanceForEmail
      simp [hf]
    rw [he] at hl
    simp [emptySt] at hl

/-- Witness for C4 on the one-retry script: both acquired lock tokens
appear in the release trace. -/
theorem contextLocks_released_witness :
    (1 : Nat) ∈ (createInstanceForEmail envRetryOnce).st.releasedL :=
  contextLocks_released envRetryOnce 1 (by decide)

/-- Browser invariant of a run state: the current browser is the only
borrowed handle not yet recorded as released. -/
def BrowserInv (s : PoolSt) : Prop :=
  s.cur < s.nextB ∧ ∀ b, b < s.nextB → b = s.cur ∨ b ∈ s.releasedB

/-- The swap sequence preserves the browser invariant. -/
theorem swapBrowser_browserInv {s : PoolSt} (h : BrowserInv s) : BrowserInv (swapBrowser s) := by
  obtain ⟨hc, hi⟩ := h
  constructor
  · simp [swapBrowser]
  · intro b hb
    simp only [swapBrowser] at hb ⊢
    rcases Nat.lt_succ_iff_lt_or_eq.mp hb with h1 | h1
    · rcases hi b h1 with h2 | h2
      · right; simp [h2]
      · right; simp [h2]
    · left; exact h1

/-- The connectivity check preserves the browser invariant. -/
theorem ctxIterStart_browserInv {env : Env} {s : PoolSt} (h : BrowserInv s) :
    BrowserInv (ctxIterStart env s) := by
  unfold ctxIterStart
  split
  · exact h
  · exact swapBrowser_browserInv h

/-- Releasing the current browser (keeping it current) preserves the
browser invariant. -/
theorem releaseCur_browserInv {s : PoolSt} (h : BrowserInv s) :
    BrowserInv { s with releasedL := s.releasedL ++ [s.curLock]
                        releasedB := s.releasedB ++ [s.cur] } := by
  obtain ⟨hc, hi⟩ := h
  refine ⟨hc, ?_⟩
  intro b hb
  rcases hi b hb with h2 | h2
  · left; exact h2
  · right; simp [h2]

/-- The retry loop preserves the browser invariant on every path. -/
theorem ctxLoop_browserInv (env : Env) :
    ∀ r iter s, BrowserInv s → BrowserInv (ctxLoop env iter r s).st := by
  intro r
  induction r with
  | zero => intro iter s h; simpa [ctxLoop] using h
  | succ r ih =>
    intro iter s h
    have h1 : BrowserInv (ctxIterStart env s) := ctxIterStart_browserInv h
    cases ha : env.attempt iter with
    | none => rw [ctxLoop_ok env iter r s ha]; exact h1
    | some msg =>
      by_cases hc : containsSubstr msg "has been closed" ∧ 0 < r
      · rw [ctxLoop_retry env iter r s msg ha hc]
        exact ih (iter + 1) (swapBrowser (ctxIterStart env s)) (swapBrowser_browserInv h1)
      · rw [ctxLoop_throw env iter r s msg ha hc]
        exact releaseCur_browserInv h1

/-- The initial state satisfies the browser invariant. -/
theorem initSt_browserInv : BrowserInv initSt := by
  constructor
  · simp [initSt]
  · intro b hb
    left
    simp [initSt] at hb ⊢
    omega

/-- On every failing exit of `createInstanceForEmail`, the final release
trace contains everything the loop released plus the current browser,
and no browser is acquired after the loop. -/
theorem createInstance_failed_browsers (env : Env) (h : env.urlOk = true)
    (hf : (createInstanceForEmail env).result = CreateRes.failed) :
    (createInstanceForEmail env).st.nextB = (ctxLoop env 0 3 initSt).st.nextB
  ∧ ∀ b, (b ∈ (ctxLoop env 0 3 initSt).st.releasedB ∨ b = (ctxLoop env 0 3 initSt).st.cur) →
      b ∈ (createInstanceForEmail env).st.releasedB := by
  unfold createInstanceForEmail at hf ⊢
  cases hres : (ctxLoop env 0 3 initSt).res with
  | ok =>
    cases hpost : env.post with
    | none => simp [h, hres, hpost] at hf
    | some m =>
      refine ⟨by simp [h, hres, hpost], ?_⟩
      intro b hb
      simp only [h, hres, hpost]
      rcases hb with h2 | h2 <;> simp [h2]
  | threw m =>
    refine ⟨by simp [h, hres], ?_⟩
    intro b hb
    simp only [h, hres]
    rcases hb with h2 | h2 <;> simp [h2]
  | noPage =>
    refine ⟨by simp [h, hres], ?_⟩
    intro b hb
    simp only [h, hres]
    rcases hb with h2 | h2 <;> simp [h2]

/-- C5: on every failing path of `createInstanceForEmail` (every run
that returns `null`), each browser handle acquired from the pool has
been passed to `releaseBrowser` before the function returns: every
acquired browser number is in the release trace. -/
theorem browsersReleased_on_failure (env : Env)
    (hf : (createInstanceForEmail env).result = CreateRes.failed) :
    ∀ b, b < (createInstanceForEmail env).st.nextB →
      b ∈ (createInstanceForEmail env).st.releasedB := by
  intro b hb
  by_cases h : env.urlOk = true
  · obtain ⟨hn, hrb⟩ := createInstance_failed_browsers env h hf
    rw [hn] at hb
    have hinv := ctxLoop_browserInv env 3 0 initSt initSt_browserInv
    rcases hinv.2 b hb with h2 | h2
    · exact hrb b (Or.inr h2)
    · exact hrb b (Or.inl h2)
  · have hfalse : env.urlOk = false := by revert h; cases env.urlOk <;> simp
    have he : createInstanceForEmail env
        = { result := CreateRes.failed, st := emptySt, attempts := 0, delays := [] } := by
      unfold createInstanceForEmail
      simp [hfalse]
    rw [he] at hb
    simp [emptySt] at hb

/-- Script where the single context attempt succeeds but the page
preparation after the loop fails. -/
def envPostFail : Env :=
  { envRetryOnce with post := some "nav failed" }

/-- Witness for C5 on a failing run with two borrowed handles: both were
returned to the pool. -/
theorem browsersReleased_on_failure_witness :
    (1 : Nat) ∈ (createInstanceForEmail envPostFail).st.releasedB :=
  browsersReleased_on_failure envPostFail (by decide) 1 (by decide)

/-- C6: before a context is created on the current handle, its
connectivity is checked; a disconnected handle makes the iteration —
within the retry loop, before the attempt — invoke the lock's release
callback, return the bad handle to the pool, acquire the replacement
handle (the pool's next number) and the context lock on it, and proceed
with context creation on the replacement; the disconnect itself never
surfaces as an error: a subsequently successful attempt makes the whole
iteration break successfully on the replacement handle. -/
theorem disconnect_replaces_handle (env : Env) (iter r : Nat) (s : PoolSt)
    (hdis : env.connected s.cur = false) :
    ctxIterStart env s = swapBrowser s
  ∧ (swapBrowser s).releasedL = s.releasedL ++ [s.curLock]
  ∧ (swapBrowser s).releasedB = s.releasedB ++ [s.cur]
  ∧ (swapBrowser s).cur = s.nextB
  ∧ (swapBrowser s).nextB = s.nextB + 1
  ∧ (swapBrowser s).curLock = s.nextLock
  ∧ (swapBrowser s).nextLock = s.nextLock + 1
  ∧ (env.attempt iter = none →
      (ctxLoop env iter (r + 1) s).res = LoopRes.ok
    ∧ (ctxLoop env iter (r + 1) s).st.cur = s.nextB) := by
  have h1 : ctxIterStart env s = swapBrowser s := by
    simp [ctxIterStart, hdis]
  refine ⟨h1, rfl, rfl, rfl, rfl, rfl, rfl, fun ha => ?_⟩
  rw [ctxLoop_ok env iter r s ha]
  constructor
  · rfl
  · dsimp only
    rw [h1]
    rfl

/-- Witness for C6: browser 0 arrives disconnected, the run swaps it for
browser 1 and succeeds there. -/
theorem disconnect_replaces_handle_witness :
    ctxIterStart envDisc initSt = swapBrowser initSt
  ∧ (swapBrowser initSt).releasedL = initSt.releasedL ++ [initSt.curLock]
  ∧ (swapBrowser initSt).releasedB = initSt.releasedB ++ [initSt.cur]
  ∧ (swapBrowser initSt).cur = initSt.nextB
  ∧ (swapBrowser initSt).nextB = initSt.nextB + 1
  ∧ (swapBrowser initSt).curLock = initSt.nextLock
  ∧ (swapBrowser initSt).nextLock = initSt.nextLock + 1
  ∧ ((ctxLoop envDisc 0 3 initSt).res = LoopRes.ok
    ∧ (ctxLoop envDisc 0 3 initSt).st.cur = initSt.nextB) := by
  have h := disconnect_replaces_handle envDisc 0 2 initSt (by decide)
  exact ⟨h.1, h.2.1, h.2.2.1, h.2.2.2.1, h.2.2.2.2.1, h.2.2.2.2.2.1,
         h.2.2.2.2.2.2.1, h.2.2.2.2.2.2.2 (by decide)⟩

/-- Witness for C3 on a script with one retryable failure then success:
two attempts, one backoff, and the first attempt's error is the
retryable one. -/
theorem contextRetry_policy_witness :
    (createInstanceForEmail envRetryOnce).attempts ≤ 3
  ∧ (createInstanceForEmail envRetryOnce).delays
      = List.replicate ((createInstanceForEmail envRetryOnce).attempts - 1) 100
  ∧ ∃ msg, envRetryOnce.attempt 0 = some msg
      ∧ containsSubstr msg "has been closed" = true ∧ 0 + 1 < 3 := by
  have h := contextRetry_policy envRetryOnce
  exact ⟨h.1, h.2.1, h.2.2 0 (by decide)⟩
